import Mathlib

/-!
Verification development for the concurrency core of `src/lib/base/io-engine.hpp`
(the Icinga 2 async I/O engine): the coroutine-spawn wrapper with its
cross-boundary exception handling, the platform-dependent coroutine stack size,
the CPU-bound admission semaphore and its scope guards, the lazily
constructed engine singleton, and the cooperative (Asio) condition variable.

The header is embedded shallowly: inline functions become Lean functions,
class member lists are recorded as data, and the behaviour only declared in the
header (whose definitions live outside the provided sources) is modelled from
the specification, with each such definition marked `Modelled from the spec:`.
-/

namespace IcingaIoEngine

/-! ## C++ exceptions at the coroutine boundary

`spawn_coroutine` distinguishes exactly one exception type structurally
(`boost::coroutines::detail::forced_unwind`, caught by its own clause); every
other exception is handled by the `catch (...)` clause. An exception value is
therefore modelled as either the distinguished forced-unwind signal or an
arbitrary other exception carrying its dynamic type and message. -/

inductive CppExc where
  | forcedUnwind : CppExc
  | other (ty msg : String) : CppExc
deriving DecidableEq, Repr

/-- A `std::exception_ptr`: null (`none`) when no exception is active,
otherwise a handle to the active exception. -/
abbrev StdExceptionPtr := Option CppExc

/-- The object produced by `boost::enable_current_exception(ex)` in
`convertExceptionPtr`: a throwable wrapper holding the `std::exception_ptr`
value `ex` that was passed in. -/
structure EnabledWrapper where
  ptr : StdExceptionPtr
deriving DecidableEq, Repr

/-- A `boost::exception_ptr`: either null or a capture of a thrown object. -/
inductive BoostExceptionPtr where
  | null : BoostExceptionPtr
  | captured (w : EnabledWrapper) : BoostExceptionPtr
deriving DecidableEq, Repr

/-- The `std::exception_ptr` payload recoverable from a `boost::exception_ptr`
produced by the conversion path (what the driving loop can rethrow to recover
the original exception). -/
def BoostExceptionPtr.stdPayload : BoostExceptionPtr → StdExceptionPtr
  | .null => none
  | .captured w => w.ptr

/-- `boost::enable_current_exception(ex)`: wraps `ex` into a throwable object
carrying boost exception machinery. -/
def enable_current_exception (ex : StdExceptionPtr) : EnabledWrapper :=
  ⟨ex⟩

/-- `throw boost::enable_current_exception(ex)`: the `try` block of
`convertExceptionPtr` always throws, so it never produces a normal value. -/
def throwEnabled (ex : StdExceptionPtr) : Except EnabledWrapper BoostExceptionPtr :=
  .error (enable_current_exception ex)

/-- `boost::current_exception()` evaluated inside a `catch (...)` handler whose
caught object is `w`: captures that object into a (non-null)
`boost::exception_ptr`. -/
def boost_current_exception (w : EnabledWrapper) : BoostExceptionPtr :=
  .captured w

/-- `IoEngine::convertExceptionPtr` (io-engine.hpp:89-95): throws
`boost::enable_current_exception(ex)` inside a `try`, catches everything, and
returns `boost::current_exception()` from the handler. -/
def convertExceptionPtr (ex : StdExceptionPtr) : BoostExceptionPtr :=
  match throwEnabled ex with
  | .error w => boost_current_exception w
  | .ok v => v

/-- `boost::rethrow_exception(bep)`: unconditionally throws the exception held
by `bep`; it never returns normally. -/
def boost_rethrow_exception (bep : BoostExceptionPtr) : Except BoostExceptionPtr Unit :=
  .error bep

/-- `IoEngine::rethrow_boost_compatible_exception_pointer` (io-engine.hpp:97-102),
as a function of the currently active exception `cur`
(`sep = std::current_exception()`): converts `sep` to a `boost::exception_ptr`
and rethrows it. -/
def rethrow_boost_compatible_exception_pointer (cur : StdExceptionPtr) :
    Except BoostExceptionPtr Unit :=
  let sep : StdExceptionPtr := cur
  let bep : BoostExceptionPtr := convertExceptionPtr sep
  boost_rethrow_exception bep

/-! ## The `spawn_coroutine` wrapper lambda -/

/-- The outcome of invoking the user-supplied function `f(yc)` inside the
wrapper: either it returns normally or it raises an exception. -/
inductive FnOutcome where
  | ret : FnOutcome
  | throws (e : CppExc) : FnOutcome
deriving DecidableEq, Repr

/-- What escapes the wrapper lambda of `spawn_coroutine` (io-engine.hpp:115-125)
into the surrounding coroutine machinery. -/
inductive WrapperEscape where
  | normalReturn : WrapperEscape
  | rawExc (e : CppExc) : WrapperEscape
  | boostPtr (bep : BoostExceptionPtr) : WrapperEscape
deriving DecidableEq, Repr

/-- The wrapper lambda of `IoEngine::spawn_coroutine` (io-engine.hpp:115-125):
`try { f(yc); } catch (const forced_unwind&) { throw; } catch (...) {
rethrow_boost_compatible_exception_pointer(); }`. The second handler runs with
the caught exception active, so `std::current_exception()` there yields it. -/
def coroutineWrapper (outcome : FnOutcome) : WrapperEscape :=
  match outcome with
  | .ret => .normalReturn
  | .throws .forcedUnwind => .rawExc .forcedUnwind
  | .throws e =>
      match rethrow_boost_compatible_exception_pointer (some e) with
      | .error bep => .boostPtr bep
      | .ok _ => .normalReturn

/-- The exceptions observed by the reactor driving loop (where
`IoEngine::RunEventLoop` calls `io_service::run()`) for one wrapper escape:
a thrown `boost::exception_ptr` propagates off the coroutine stack and is
observed there once; a normal return yields nothing; the raw forced-unwind
signal is consumed by the coroutine teardown machinery, not the loop. -/
def loopObservations : WrapperEscape → List StdExceptionPtr
  | .normalReturn => []
  | .rawExc _ => []
  | .boostPtr bep => [bep.stdPayload]

/-! ## Coroutine stack sizing (`spawn_coroutine`, io-engine.hpp:106-112, 127) -/

/-- The two build-time cases of the `#ifdef _WIN32` in `spawn_coroutine`. -/
inductive Platform where
  | win32 : Platform
  | posix : Platform
deriving DecidableEq, Repr

/-- `boost::coroutines::stack_allocator::traits_type::default_size()`, which
the source comment documents as "Default 64 KB" (io-engine.hpp:111). -/
def boostDefaultStackSize : Nat := 64 * 1024

/-- `l_CoroutinesStackSize` as selected at build time by the `#ifdef _WIN32`
(io-engine.hpp:106-112): `8 * 1024 * 1024` on Windows, the stack allocator
default elsewhere. -/
def l_CoroutinesStackSize : Platform → Nat
  | .win32 => 8 * 1024 * 1024
  | .posix => boostDefaultStackSize

/-! ## Class member lists, as declared in the header -/

/-- One C++ data-member declaration: its declared type and its name. -/
structure CppMember where
  ctype : String
  cname : String
deriving DecidableEq, Repr

/-- The data members of `class CpuBoundWork` (io-engine.hpp:38-39): only the
release flag. -/
def cpuBoundWorkMembers : List CppMember :=
  [⟨"bool", "m_Done"⟩]

/-- The data members of `class IoBoundWorkSlot` (io-engine.hpp:57-58): the
stored suspension handle. -/
def ioBoundWorkSlotMembers : List CppMember :=
  [⟨"boost::asio::yield_context", "yc"⟩]

/-- The data members of `class IoEngine` (io-engine.hpp:136-142). -/
def ioEngineMembers : List CppMember :=
  [⟨"LazyInit<std::unique_ptr<IoEngine>>", "m_Instance"⟩,
   ⟨"boost::asio::io_service", "m_IoService"⟩,
   ⟨"boost::asio::io_service::work", "m_KeepAlive"⟩,
   ⟨"std::vector<std::thread>", "m_Threads"⟩,
   ⟨"boost::asio::deadline_timer", "m_AlreadyExpiredTimer"⟩,
   ⟨"std::atomic_int_fast32_t", "m_CpuBoundSemaphore"⟩]

/-- The data members of `class AsioConditionVariable` (io-engine.hpp:163-164):
only the reactor-bound deadline timer. -/
def asioConditionVariableMembers : List CppMember :=
  [⟨"boost::asio::deadline_timer", "m_Timer"⟩]

/-! ## CPU-bound admission: the semaphore transition system

The bodies of `CpuBoundWork::CpuBoundWork`, `CpuBoundWork::Done`,
`CpuBoundWork::~CpuBoundWork` and the semaphore initialization are declared in
the header but defined outside the provided sources, so they are modelled from
the spec: the counter starts at hardware concurrency `C`; a constructing guard
decrements the counter when a slot is free and otherwise cooperatively suspends
(no transition) until one is; releasing an admitted guard increments the
counter. Each transition is one atomic step, mirroring the required atomic
increment/decrement of `m_CpuBoundSemaphore`. -/

/-- The shared admission state: the semaphore value (`m_CpuBoundSemaphore`,
a signed atomic) together with the number of simultaneously-alive admitted
`CpuBoundWork` guards. -/
structure SemState where
  counter : Int
  admitted : Nat
deriving DecidableEq, Repr

/-- Modelled from the spec: the two atomic transitions on the admission state.
`acquire` is a guard constructor winning a free slot (a suspended constructor
performs no transition); `release` is an admitted guard returning its slot
(via `Done` or destruction). -/
inductive SemStep : SemState → SemState → Prop where
  | acquire (s : SemState) (h : 0 < s.counter) :
      SemStep s ⟨s.counter - 1, s.admitted + 1⟩
  | release (s : SemState) (h : 0 < s.admitted) :
      SemStep s ⟨s.counter + 1, s.admitted - 1⟩

/-- Modelled from the spec: the states reachable from the initial state, in
which the semaphore holds the hardware-concurrency value `C` and no guard is
alive. -/
inductive SemReachable (C : Nat) : SemState → Prop where
  | init : SemReachable C ⟨(C : Int), 0⟩
  | step {s t : SemState} : SemReachable C s → SemStep s t → SemReachable C t

/-! ## The `CpuBoundWork` guard lifecycle -/

/-- `class CpuBoundWork` state as declared in the header: the release flag
`m_Done` (io-engine.hpp:39). -/
structure CpuBoundWork where
  m_Done : Bool
deriving DecidableEq, Repr

/-- Modelled from the spec: `CpuBoundWork::Done` — the idempotent explicit
release. If the slot has not been returned yet, return it (atomically increment
the semaphore) and mark the guard done; otherwise do nothing. Returns the
updated guard and semaphore value. -/
def CpuBoundWork.Done (g : CpuBoundWork) (sem : Int) : CpuBoundWork × Int :=
  if g.m_Done then (g, sem) else (⟨true⟩, sem + 1)

/-- Modelled from the spec: `CpuBoundWork::~CpuBoundWork` — on destruction
(which C++ runs on every exit path, an escaping exception included), return the
slot if it was not already released. Returns the final semaphore value. -/
def CpuBoundWork.destruct (g : CpuBoundWork) (sem : Int) : Int :=
  (g.Done sem).2

/-! ## The engine singleton (`IoEngine::Get`, `m_Instance`)

`IoEngine::Get` and the `LazyInit` template it relies on are declared in the
header (io-engine.hpp:78, 136) but defined outside the provided sources, so the
lazy initialization is modelled from the spec: construction is exactly-once
under concurrent first access (atomic-guarded lazy init), and later calls
return the same instance. Concurrency is modelled as an interleaving of atomic
steps; ghost fields count constructor runs and record the instance each
completed `Get()` call returned. Instances are identified by their construction
index. -/

/-- The global singleton state: `m_Instance` (none while unconstructed) plus
ghost bookkeeping — how many times the `IoEngine` constructor has run, and the
instances returned by completed `Get()` calls so far. -/
structure EngineState where
  m_Instance : Option Nat
  constructions : Nat
  returns : List Nat
deriving DecidableEq, Repr

/-- Modelled from the spec: the atomic steps of concurrent `Get()` calls.
`construct` runs the constructor; the atomic guard of the lazy init admits it
only while no instance exists, and installs the new instance atomically with
the guard. `ret` is a `Get()` call completing: it returns the instance
currently installed. -/
inductive GetStep : EngineState → EngineState → Prop where
  | construct (s : EngineState) (h : s.m_Instance = none) :
      GetStep s ⟨some s.constructions, s.constructions + 1, s.returns⟩
  | ret (s : EngineState) (i : Nat) (h : s.m_Instance = some i) :
      GetStep s ⟨s.m_Instance, s.constructions, i :: s.returns⟩

/-- Modelled from the spec: the states reachable from process start, where no
instance exists, the constructor has never run, and no call has returned. -/
inductive EngineReachable : EngineState → Prop where
  | init : EngineReachable ⟨none, 0, []⟩
  | step {s t : EngineState} : EngineReachable s → GetStep s t →
      EngineReachable t

/-- The inductive invariant of the lazy singleton: before construction nothing
has run or returned; after construction the instance is the one built by the
single constructor run, and every completed call returned exactly it. -/
abbrev EngineInv (s : EngineState) : Prop :=
  (s.m_Instance = none → s.constructions = 0 ∧ s.returns = []) ∧
  (∀ i : Nat, s.m_Instance = some i → i = 0 ∧ s.constructions = 1) ∧
  (∀ j ∈ s.returns, j = 0)

/-- Every atomic step of concurrent `Get()` calls preserves the singleton
invariant. -/
theorem engine_inv_step {s t : EngineState} (hst : GetStep s t)
    (ih : EngineInv s) : EngineInv t := by
  obtain ⟨ihn, ihs, ihr⟩ := ih
  cases hst with
  | construct h =>
      obtain ⟨hc, hr⟩ := ihn h
      refine ⟨fun hn => by simp at hn, fun i hi => ?_, fun j hj => ihr j hj⟩
      simp at hi
      constructor
      · omega
      · show s.constructions + 1 = 1
        omega
  | ret i h =>
      obtain ⟨hi0, hc1⟩ := ihs i h
      refine ⟨fun hn => ?_, fun k hk => ihs k hk, fun j hj => ?_⟩
      · have hn2 : s.m_Instance = none := hn
        rw [hn2] at h
        cases h
      · have hj2 : j ∈ i :: s.returns := hj
        simp only [List.mem_cons] at hj2
        rcases hj2 with hj2 | hj2
        · rw [hj2, hi0]
        · exact ihr j hj2

/-- Every reachable state of the lazy singleton satisfies the invariant. -/
theorem engine_state_invariant (s : EngineState) (h : EngineReachable s) :
    EngineInv s := by
  induction h with
  | init => simp [EngineInv]
  | step _ hst ih => exact engine_inv_step hst ih

/-! ## The cooperative condition variable (`AsioConditionVariable`)

The bodies of `Set`, `Clear`, `Wait` and the constructor are declared in the
header (io-engine.hpp:157-161) but defined outside the provided sources. They
are modelled from the spec over the state the header declares — a single
reactor-bound deadline timer: the signaled condition is the timer being
expired; `Set()` marks signaled by expiring the bound timer now, `Clear()`
marks not-signaled, and `Wait(yc)` returns immediately when signaled and
otherwise cooperatively suspends the calling coroutine (never blocking the OS
thread) until the next `Set()`. -/

/-- The `AsioConditionVariable` state declared in the header: its deadline
timer, abstracted to whether the timer is currently expired (the signaled
condition). -/
structure AsioConditionVariable where
  timerExpired : Bool
deriving DecidableEq, Repr

/-- Modelled from the spec: the constructor arms the timer so that the variable
starts signaled iff `init` is set. -/
def AsioConditionVariable.construct (init : Bool) : AsioConditionVariable :=
  ⟨init⟩

/-- Modelled from the spec: `Set()` marks signaled by expiring the bound timer
now. -/
def AsioConditionVariable.set (_cv : AsioConditionVariable) :
    AsioConditionVariable :=
  ⟨true⟩

/-- Modelled from the spec: `Clear()` marks not-signaled by re-arming the
timer. -/
def AsioConditionVariable.clear (_cv : AsioConditionVariable) :
    AsioConditionVariable :=
  ⟨false⟩

/-- The status of the single waiting coroutine. -/
inductive WaiterStatus where
  | idle : WaiterStatus
  | suspended : WaiterStatus
  | resumed : WaiterStatus
deriving DecidableEq, Repr

/-- A condition variable together with its (single) waiter. -/
structure CvSystem where
  cv : AsioConditionVariable
  waiter : WaiterStatus
deriving DecidableEq, Repr

/-- The operations a trace can perform on the condition variable. -/
inductive CvEvent where
  | set : CvEvent
  | clear : CvEvent
  | wait : CvEvent
deriving DecidableEq, Repr

/-- Modelled from the spec: one step of the condition-variable system.
`set` expires the timer and immediately releases a coroutine currently
suspended in `Wait()`; `clear` re-arms the timer; `wait` (the idle waiter
calling `Wait`) returns immediately when signaled and otherwise suspends
cooperatively, leaving the OS thread free. -/
def cvStep (s : CvSystem) : CvEvent → CvSystem
  | .set =>
      ⟨s.cv.set, if s.waiter = .suspended then .resumed else s.waiter⟩
  | .clear => ⟨s.cv.clear, s.waiter⟩
  | .wait =>
      if s.cv.timerExpired then ⟨s.cv, .resumed⟩ else ⟨s.cv, .suspended⟩

/-- Running a trace of events from a starting state. -/
def cvRun (s : CvSystem) (es : List CvEvent) : CvSystem :=
  es.foldl cvStep s

end IcingaIoEngine

namespace IcingaIoEngine

/-- Inductive invariant of the admission system: the semaphore value and the
number of alive admitted guards always sum to the capacity, and the semaphore
never goes negative. -/
theorem sem_state_invariant (C : Nat) (s : SemState) (h : SemReachable C s) :
    s.counter + s.admitted = C ∧ 0 ≤ s.counter := by
  induction h with
  | init => simp
  | step _ hst ih =>
      cases hst with
      | acquire h => simp only [] at ih ⊢; push_cast; omega
      | release h => simp only [] at ih ⊢; omega


/-- Claim C3: in every reachable state of the admission system, the number of
simultaneously-alive admitted `CpuBoundWork` guards never exceeds the capacity
`C` to which the semaphore is initialized; and the counter is declared with an
atomic type (`std::atomic_int_fast32_t m_CpuBoundSemaphore`), so each
decrement and increment is one atomic step. -/
theorem cpu_bound_admissions_capped (C : Nat) (s : SemState)
    (h : SemReachable C s) :
    s.admitted ≤ C ∧
      (⟨"std::atomic_int_fast32_t", "m_CpuBoundSemaphore"⟩ : CppMember) ∈
        ioEngineMembers := by
  have hinv := sem_state_invariant C s h
  refine ⟨?_, by simp [ioEngineMembers]⟩
  omega

/-- Witness for C3: with capacity 2, the initial state is reachable and its
number of admitted guards is within the cap. -/
theorem cpu_bound_admissions_capped_witness :
    (⟨(2 : Int), 0⟩ : SemState).admitted ≤ 2 ∧
      (⟨"std::atomic_int_fast32_t", "m_CpuBoundSemaphore"⟩ : CppMember) ∈
        ioEngineMembers :=
  cpu_bound_admissions_capped 2 ⟨(2 : Int), 0⟩ SemReachable.init

/-- Claim C4: for a live (not yet released) guard, calling `Done` and then
running the destructor returns exactly one slot, not two; `Done` is idempotent;
and the destructor returns the slot exactly when the guard was not already
released — so every exit path releases exactly once. -/
theorem cpu_guard_released_exactly_once (sem : Int) :
    (CpuBoundWork.destruct (CpuBoundWork.Done ⟨false⟩ sem).1
        (CpuBoundWork.Done ⟨false⟩ sem).2 = sem + 1) ∧
    (∀ (g : CpuBoundWork) (s : Int),
      CpuBoundWork.Done (CpuBoundWork.Done g s).1 (CpuBoundWork.Done g s).2 =
        CpuBoundWork.Done g s) ∧
    (CpuBoundWork.destruct ⟨false⟩ sem = sem + 1) ∧
    (CpuBoundWork.destruct ⟨true⟩ sem = sem) := by
  refine ⟨rfl, ?_, rfl, rfl⟩
  intro g s
  cases g with
  | mk d => cases d <;> simp [CpuBoundWork.Done]


/-- Claim C9: for every spawn via `spawn_coroutine`, the coroutine stack size is
a platform-dependent build-time constant: `8 * 1024 * 1024` bytes on Windows and
the stack allocator default (64 KB) on every other platform, with the larger
size used on the constrained platform (Windows). -/
theorem stack_size_platform_constant :
    l_CoroutinesStackSize .win32 = 8 * 1024 * 1024 ∧
    l_CoroutinesStackSize .posix = boostDefaultStackSize ∧
    l_CoroutinesStackSize .posix < l_CoroutinesStackSize .win32 := by
  refine ⟨rfl, rfl, ?_⟩
  decide

/-- Claim C10: `rethrow_boost_compatible_exception_pointer` never returns
normally — for every active exception state it throws the `boost::exception_ptr`
obtained by converting the current `std::exception_ptr`; and
`convertExceptionPtr` is total, returning for every input (the null pointer
included) a non-null `boost::exception_ptr` capturing that input, with no
exception escaping the conversion. -/
theorem rethrow_never_returns_convert_total :
    (∀ cur : StdExceptionPtr,
      rethrow_boost_compatible_exception_pointer cur =
        .error (convertExceptionPtr cur)) ∧
    (∀ ex : StdExceptionPtr,
      convertExceptionPtr ex = .captured ⟨ex⟩ ∧ convertExceptionPtr ex ≠ .null) := by
  constructor
  · intro cur
    rfl
  · intro ex
    exact ⟨rfl, by simp [convertExceptionPtr, throwEnabled, boost_current_exception,
      enable_current_exception]⟩

/-- Claim C1: every exception other than the forced-unwind signal raised by the
spawned function is caught by the wrapper, converted to a boundary-safe
`boost::exception_ptr`, and observed by the driving loop exactly once with the
original exception (its type and message) preserved — never dropped, never
duplicated. -/
theorem spawned_exception_observed_once (e : CppExc) (h : e ≠ .forcedUnwind) :
    loopObservations (coroutineWrapper (.throws e)) = [some e] := by
  cases e with
  | forcedUnwind => exact absurd rfl h
  | other ty msg => rfl

/-- Witness for C1: the concrete exception `std::runtime_error("boom")` is
observed exactly once by the driving loop, with its message intact. -/
theorem spawned_exception_observed_once_witness :
    loopObservations
      (coroutineWrapper (.throws (.other "std::runtime_error" "boom"))) =
      [some (.other "std::runtime_error" "boom")] :=
  spawned_exception_observed_once (.other "std::runtime_error" "boom") (by decide)

/-- Claim C2: when the spawned function raises the distinguished stack-teardown
signal `boost::coroutines::detail::forced_unwind`, the wrapper rethrows that
exact exception unmodified (first catch clause, bare `throw;`), never converting
or swallowing it. -/
theorem forced_unwind_passes_through :
    coroutineWrapper (.throws .forcedUnwind) = .rawExc .forcedUnwind := rfl

/-- Claim C5: `IoEngine::Get` constructs the singleton at most once even under
concurrent first access (the constructor can never run twice along any
interleaving), and all completed `Get()` calls return the identical instance. -/
theorem engine_singleton_exactly_once (s : EngineState) (h : EngineReachable s) :
    s.constructions ≤ 1 ∧ ∀ a ∈ s.returns, ∀ b ∈ s.returns, a = b := by
  obtain ⟨hn, hs, hr⟩ := engine_state_invariant s h
  constructor
  · cases hI : s.m_Instance with
    | none => exact (hn hI).1 ▸ Nat.zero_le 1
    | some i => exact le_of_eq (hs i hI).2
  · intro a ha b hb
    rw [hr a ha, hr b hb]

/-- Witness for C5: the initial state is reachable; there the constructor has
run at most once and all returned instances agree. -/
theorem engine_singleton_exactly_once_witness :
    (⟨none, 0, []⟩ : EngineState).constructions ≤ 1 ∧
      ∀ a ∈ (⟨none, 0, []⟩ : EngineState).returns,
        ∀ b ∈ (⟨none, 0, []⟩ : EngineState).returns, a = b :=
  engine_singleton_exactly_once ⟨none, 0, []⟩ EngineReachable.init

/-- Claim C6: `Wait` called on a signaled condition variable returns
immediately; `Wait` called on an unsignaled one suspends the calling coroutine
until the next `Set` (an intervening `Clear` does not wake it), and that `Set`
resumes it; and a `Clear` after a `Set` makes a subsequent `Wait` suspend
again. -/
theorem condition_variable_semantics (cv : AsioConditionVariable) :
    (cvStep ⟨⟨true⟩, .idle⟩ .wait).waiter = .resumed ∧
    (cvStep ⟨⟨false⟩, .idle⟩ .wait).waiter = .suspended ∧
    (cvStep (cvStep ⟨⟨false⟩, .idle⟩ .wait) .clear).waiter = .suspended ∧
    (cvStep (cvStep ⟨⟨false⟩, .idle⟩ .wait) .set).waiter = .resumed ∧
    (cvRun ⟨cv, .idle⟩ [.set, .clear, .wait]).waiter = .suspended := by
  rcases cv with ⟨b⟩
  cases b <;> decide

/-- Counterexample to claim C7 as stated: the condition variable class declares
no boolean data member at all (io-engine.hpp:163-164) — its state does not
consist of a boolean signaled flag together with a timer. -/
theorem cv_no_bool_member :
    ¬ ∃ m ∈ asioConditionVariableMembers, m.ctype = "bool" := by
  decide

/-- Claim C7 (amended): the state of the cooperative condition variable
consists solely of a reactor-bound deadline timer; the signaled condition is
encoded as that timer being expired, and every operation reads or updates that
encoding — `Set` expires the timer, `Clear` re-arms it, and `Wait` branches on
it. -/
theorem cv_state_is_timer (cv : AsioConditionVariable) (s : CvSystem) :
    asioConditionVariableMembers =
      [⟨"boost::asio::deadline_timer", "m_Timer"⟩] ∧
    (cv.set).timerExpired = true ∧
    (cv.clear).timerExpired = false ∧
    (cvStep s .wait).waiter =
      (if s.cv.timerExpired then .resumed else .suspended) := by
  refine ⟨rfl, rfl, rfl, ?_⟩
  simp only [cvStep]
  by_cases h : s.cv.timerExpired <;> simp [h]

/-- Counterexample to claim C8 as stated: `CpuBoundWork` does not hold the
coroutine's suspension handle as part of its state — its only data member is
the `bool m_Done` release flag (io-engine.hpp:38-39); the `yield_context` is a
constructor argument it does not retain. -/
theorem cpu_guard_no_handle_member :
    ¬ ∃ m ∈ cpuBoundWorkMembers, m.ctype = "boost::asio::yield_context" := by
  decide

/-- Claim C8 (amended): `IoBoundWorkSlot` holds the coroutine's suspension
handle (`boost::asio::yield_context yc`) as part of its state for its whole
lifetime; `CpuBoundWork` receives the handle only at construction and does not
retain it, its sole data member being the release flag. -/
theorem guard_handle_members :
    (⟨"boost::asio::yield_context", "yc"⟩ : CppMember) ∈ ioBoundWorkSlotMembers ∧
    (∀ m ∈ cpuBoundWorkMembers, m.ctype ≠ "boost::asio::yield_context") ∧
    cpuBoundWorkMembers = [⟨"bool", "m_Done"⟩] := by
  refine ⟨?_, ?_, rfl⟩ <;> decide

end IcingaIoEngine
